import Mathlib

/-!
Shallow embedding of the llm_selfhost proxy core (src/src): the configuration
loader (config-loader.js), the two backend strategies (strategies/cerebras-strategy.js,
strategies/self-hosted-strategy.js), the backend factory (backend-factory.js) and the
HTTP handlers of the proxy server (proxy-server.js).  JavaScript objects are
modelled as association lists, absent fields as `Option`, JS string truthiness
explicitly, and every outbound HTTP call is a parameter (the axios outcome),
so each operation is a pure, executable function of its inputs.
-/

namespace LlmProxy

/-- JS truthiness of an optional string field: the field is present and non-empty. -/
def truthyS : Option String → Bool
  | some s => !(s == "")
  | none => false

/-- JS `a || d` for an optional string: the fallback is taken when the field is
absent or empty. -/
def jsOr (o : Option String) (d : String) : String :=
  match o with
  | some s => if s == "" then d else s
  | none => d

/-- JS template interpolation of a possibly-undefined value: an absent value
prints as the string "undefined". -/
def jsShow (o : Option String) : String := o.getD "undefined"

/-- JS `String.prototype.trim`: strips leading and trailing whitespace. -/
def jsTrim (s : String) : String :=
  ⟨(((s.data.dropWhile Char.isWhitespace).reverse).dropWhile Char.isWhitespace).reverse⟩

/-- ASCII lower-casing of one character. -/
def lowerChar (c : Char) : Char :=
  if c.isUpper then c.toLower else c

/-- ASCII lower-casing of a string (used to state case-insensitive mention). -/
def lowerStr (s : String) : String := ⟨s.data.map lowerChar⟩

/-- `pat` is a prefix of the character list `l`. -/
def startsWithL : List Char → List Char → Bool
  | _, [] => true
  | [], _ :: _ => false
  | c :: t, n :: nt => c == n && startsWithL t nt

/-- `pat` occurs contiguously inside the character list `l`. -/
def hasSubstrL : List Char → List Char → Bool
  | [], pat => pat.isEmpty
  | c :: t, pat => startsWithL (c :: t) pat || hasSubstrL t pat

/-- `needle` occurs as a contiguous substring of `hay` (JS `String.includes`). -/
def includesSubstr (hay needle : String) : Bool :=
  hasSubstrL hay.data needle.data

/-- A JS object as an ordered association list of string keys. -/
abbrev Obj (α : Type) := List (String × α)

/-- Property lookup on an object (first matching key). -/
def alookup {α : Type} : Obj α → String → Option α
  | [], _ => none
  | (k', v) :: t, k => if k' == k then some v else alookup t k

/-- JS spread merge `\x7b...a, ...b\x7d`: keys of `b` override keys of `a`
(the key order of the result is irrelevant to every property proved below). -/
def objMerge {α : Type} (a b : Obj α) : Obj α :=
  a.filter (fun p => (alookup b p.1).isNone) ++ b

/-! ## Configuration data model (config-loader.js) -/

/-- One entry of the `backends` map.  Fields are optional strings; absent
fields model JSON keys that are not present. -/
structure BackendCfg where
  type : Option String := none
  apiKey : Option String := none
  url : Option String := none
  apiUrl : Option String := none
  description : Option String := none
  password : Option String := none
  token : Option String := none
deriving DecidableEq, Repr

/-- The `port` field: the string "auto" or a number. -/
inductive PortV where
  | auto
  | num (n : Nat)
deriving DecidableEq, Repr

/-- JS truthiness of the optional `port` field (`"auto"` is truthy, `0` is falsy). -/
def truthyPort : Option PortV → Bool
  | some PortV.auto => true
  | some (PortV.num n) => !(n == 0)
  | none => false

/-- The root configuration object (`backend` is the active backend name). -/
structure Config where
  backend : Option String := none
  port : Option PortV := none
  backends : Option (Obj BackendCfg) := none
deriving DecidableEq, Repr

/-- `ConfigLoader.mergeConfigs(base, override)`: every key present on the
override wins; the `backends` key is spread-merged key-by-key. -/
def mergeConfigs (base ov : Config) : Config :=
  { backend := match ov.backend with
      | some b => some b
      | none => base.backend
    port := match ov.port with
      | some p => some p
      | none => base.port
    backends := match ov.backends with
      | some bs => some (objMerge (base.backends.getD []) bs)
      | none => base.backends }

/-- `ConfigLoader.getDefaultConfig()`. -/
def getDefaultConfig : Config :=
  { backend := some "self-hosted"
    port := some PortV.auto
    backends := some [
      ("cerebras",
        { type := some "cerebras"
          apiKey := some "YOUR_CEREBRAS_API_KEY"
          apiUrl := some "https://api.cerebras.ai/v1" }),
      ("self-hosted",
        { type := some "self-hosted"
          url := some "http://localhost:8000"
          description := some "Local Python proxy (simple_api_proxy.py)" }),
      ("vast-ai",
        { type := some "self-hosted"
          url := some "http://vast-instance:8000"
          description := some "Vast.ai instance with Redis caching" }),
      ("runpod",
        { type := some "self-hosted"
          url := some "http://runpod-instance:8000"
          description := some "RunPod instance with persistent storage" })] }

/-- `ConfigLoader.validateBackend(name, backend)`: type must be present, and
the type-specific required field (apiKey for cerebras, url for self-hosted)
must be present; an unrecognized type is rejected.  No URL syntax check
happens here. -/
def validateBackend (name : String) (b : BackendCfg) : Except String Unit :=
  match b.type with
  | none => Except.error ("Backend \"" ++ name ++ "\" missing required field: type")
  | some t =>
    if t == "" then
      Except.error ("Backend \"" ++ name ++ "\" missing required field: type")
    else if t == "cerebras" then
      if truthyS b.apiKey then Except.ok ()
      else Except.error ("Backend \"" ++ name ++ "\" missing required field: apiKey")
    else if t == "self-hosted" then
      if truthyS b.url then Except.ok ()
      else Except.error ("Backend \"" ++ name ++ "\" missing required field: url")
    else
      Except.error ("Backend \"" ++ name ++ "\" has invalid type: " ++ t)

/-- `ConfigLoader.validateConfig(config)`: requires the `backend` and
`backends` fields, requires the active name to resolve in the map, and
validates only the active entry. -/
def validateConfig (c : Config) : Except String Unit :=
  match c.backend with
  | none => Except.error "Missing required field: backend"
  | some s =>
    if s == "" then Except.error "Missing required field: backend"
    else match c.backends with
      | none => Except.error "Missing required field: backends"
      | some bs =>
        match alookup bs s with
        | none => Except.error ("Backend \"" ++ s ++ "\" not found in backends configuration")
        | some b => validateBackend s b

/-- Step 5 of `ConfigLoader.load` when some explicit config was found: default
backends are added only under names absent from the merged map, and the
default port is used when the port is falsy. -/
def fillDefaults (c : Config) : Config :=
  let bs := c.backends.getD []
  let bs' := (getDefaultConfig.backends.getD []).foldl
    (fun acc p => if (alookup acc p.1).isNone then acc ++ [p] else acc) bs
  { backend := c.backend
    port := if truthyPort c.port then c.port else getDefaultConfig.port
    backends := some bs' }

/-- The configuration `ConfigLoader.load` builds before validation, as a pure
function of the three explicit sources (global file, project file, env
override); `none` models an absent (or unreadable/unparsable, hence skipped)
source.  With no explicit source at all the built-in defaults are used
wholesale; otherwise the merged config is completed from the defaults. -/
def mergedPure (g p e : Option Config) : Config :=
  let c0 : Config := {}
  let c1 := match g with
    | some x => mergeConfigs c0 x
    | none => c0
  let c2 := match p with
    | some x => mergeConfigs c1 x
    | none => c1
  let c3 := match e with
    | some x => mergeConfigs c2 x
    | none => c2
  if g.isNone && p.isNone && e.isNone then getDefaultConfig else fillDefaults c3

/-- `ConfigLoader.load` as a pure function of the three explicit sources:
merge, fill defaults, validate, and return the merged config or the
validation error. -/
def loadPure (g p e : Option Config) : Except String Config :=
  let m := mergedPure g p e
  match validateConfig m with
  | Except.ok _ => Except.ok m
  | Except.error msg => Except.error msg

/-- `ConfigLoader.configContainsSecrets(config)`: some backend entry carries a
truthy `apiKey`, `password` or `token`. -/
def configContainsSecrets (c : Config) : Bool :=
  match c.backends with
  | none => false
  | some bs => bs.any (fun p => truthyS p.2.apiKey || truthyS p.2.password || truthyS p.2.token)

/-- The filesystem effect of `ConfigLoader.save(config, path)`: the JSON
written and the file mode explicitly set afterwards (if any). -/
structure SaveEffect where
  written : Config
  mode : Option Nat
deriving DecidableEq, Repr

/-- `ConfigLoader.save`: writes the config, then chmods the file to `0o600`
exactly when the config contains secrets. -/
def savePure (c : Config) : SaveEffect :=
  { written := c
    mode := if configContainsSecrets c then some 0o600 else none }

/-- Modelled from the spec: the WHATWG `URL` constructor used by
`SelfHostedStrategy.validateConfig` (platform code, not in src) accepts only
absolute URLs, i.e. a scheme — an ASCII letter followed by letters, digits,
'+', '-' or '.' — terminated by a colon.  The spec requires the url to
"parse as a valid URL". -/
def isValidURL (s : String) : Bool :=
  match s.data.takeWhile (fun c => !(c == ':')) with
  | [] => false
  | c :: rest =>
    ((c :: rest).length < s.data.length) && c.isAlpha &&
      rest.all (fun ch => ch.isAlphanum || ch == '+' || ch == '-' || ch == '.')

/-! ## JSON values and HTTP outcomes -/

/-- Untyped JSON values: request payloads, pass-through bodies and health
reports. -/
inductive JValue where
  | null
  | bool (b : Bool)
  | num (n : Int)
  | str (s : String)
  | arr (xs : List JValue)
  | obj (fields : List (String × JValue))

/-- JS truthiness of a JSON value (objects and arrays are always truthy). -/
def jsTruthy : JValue → Bool
  | JValue.null => false
  | JValue.bool b => b
  | JValue.num n => !(n == 0)
  | JValue.str s => !(s == "")
  | JValue.arr _ => true
  | JValue.obj _ => true

/-- JS `v || d` on a possibly-absent JSON value. -/
def jsOrJ (o : Option JValue) (d : JValue) : JValue :=
  match o with
  | some v => if jsTruthy v then v else d
  | none => d

/-- The request options `\x7bmaxTokens?, temperature?, model?\x7d` passed to a
strategy; absent fields are `none` and are deleted from outbound bodies. -/
structure ReqOptions where
  max_tokens : Option JValue := none
  temperature : Option JValue := none
  model : Option JValue := none

/-- The data of an axios error response body the strategies read
(`error.response.data.error` / `.detail`). -/
structure AxiosErrData where
  error : Option String := none
  detail : Option String := none

/-- An axios failure: an optional error code (`ECONNREFUSED`, `ENOTFOUND`,
`ECONNABORTED`, ...), the error message, and — for non-2xx HTTP replies — the
status and response data. -/
structure AxiosError where
  code : Option String := none
  message : Option String := none
  response : Option (Nat × AxiosErrData) := none

/-- A classified error thrown by a strategy: a human-readable message and
optional remediation recommendations. -/
structure SafeError where
  message : String
  recommendations : Option (List String) := none
deriving DecidableEq, Repr

/-! ## Self-hosted strategy (self-hosted-strategy.js) -/

/-- The state a `SelfHostedStrategy` instance captures at construction. -/
structure SHState where
  url : String
  description : String
deriving DecidableEq, Repr

/-- `SelfHostedStrategy` constructor: rejects an absent/blank url and a url
the `URL` constructor cannot parse, then captures url and description. -/
def mkSelfHosted (c : BackendCfg) : Except String SHState :=
  match c.url with
  | none => Except.error "Self-hosted strategy requires url"
  | some u =>
    if u == "" || jsTrim u == "" then Except.error "Self-hosted strategy requires url"
    else if !(isValidURL u) then Except.error "Invalid URL format"
    else Except.ok { url := u, description := jsOr c.description "Self-hosted proxy" }

/-- The outbound POST `SelfHostedStrategy.executeRequest` performs. -/
structure SHRequest where
  url : String
  messages : List JValue
  max_tokens : Option JValue
  temperature : Option JValue
  model : Option JValue
  timeoutMs : Nat

/-- Builds the self-hosted request: the payload fields with undefined values
removed, posted to `url ++ "/v1/messages"` with a 30s timeout. -/
def buildSHRequest (st : SHState) (messages : List JValue) (options : ReqOptions) : SHRequest :=
  { url := st.url ++ "/v1/messages"
    messages := messages
    max_tokens := options.max_tokens
    temperature := options.temperature
    model := options.model
    timeoutMs := 30000 }

/-- `SelfHostedStrategy.handleError(error)`: connection errors, timeouts,
HTTP errors (with a model-not-found special case) and a generic fallback.
The branch order mirrors the source. -/
def shHandleError (st : SHState) (e : AxiosError) : SafeError :=
  if e.code == some "ECONNREFUSED" || e.code == some "ENOTFOUND" then
    { message := "Cannot connect to self-hosted proxy at " ++ st.url ++ ". Please ensure the proxy is running."
      recommendations := some [
        "Check if the Python proxy is running: python3 simple_api_proxy.py",
        "Verify the proxy URL in your configuration",
        "Try switching to Cerebras backend: llm-proxy switch cerebras",
        "Check proxy logs for error details"] }
  else if e.code == some "ECONNABORTED"
      || (match e.message with
          | some m => !(m == "") && includesSubstr m "timeout"
          | none => false) then
    { message := "Self-hosted proxy request timed out. The model may be loading or overloaded."
      recommendations := some [
        "Wait for the model to finish loading",
        "Check if the GPU has sufficient memory",
        "Try switching to Cerebras backend: llm-proxy switch cerebras",
        "Restart the Python proxy if it appears stuck"] }
  else
    match e.response with
    | some (status, d) =>
      let errorMessage := jsOr d.error (jsOr d.detail "Unknown error")
      if !(errorMessage == "")
          && (includesSubstr errorMessage "not found"
              || (includesSubstr errorMessage "model" && includesSubstr errorMessage "not")) then
        { message := "Model not loaded on self-hosted proxy: " ++ errorMessage
          recommendations := some [
            "Run: ollama pull qwen3-coder",
            "Check available models: ollama list",
            "Verify model name in configuration",
            "Try switching to Cerebras backend: llm-proxy switch cerebras"] }
      else
        { message := "Self-hosted proxy error (" ++ toString status ++ "): " ++ errorMessage
          recommendations := some [
            "Check proxy logs for detailed error information",
            "Verify the proxy is running correctly",
            "Try switching to Cerebras backend: llm-proxy switch cerebras"] }
    | none =>
      { message := "Self-hosted proxy request failed: " ++ jsOr e.message "Unknown error"
        recommendations := some [
          "Check your network connection",
          "Verify the proxy URL is correct",
          "Try switching to Cerebras backend: llm-proxy switch cerebras"] }

/-- The outcome of the outbound POST of the self-hosted strategy: a 2xx body,
or an axios failure. -/
inductive SHOutcome where
  | success (body : JValue)
  | failure (e : AxiosError)

/-- `SelfHostedStrategy.executeRequest`: the request it sends, paired with its
result given the outbound call's outcome — the backend's body verbatim on
success, the classified error otherwise. -/
def shExecuteRequest (st : SHState) (messages : List JValue) (options : ReqOptions)
    (outcome : SHOutcome) : SHRequest × Except SafeError JValue :=
  (buildSHRequest st messages options,
    match outcome with
    | SHOutcome.success b => Except.ok b
    | SHOutcome.failure e => Except.error (shHandleError st e))

/-- The outcome of the health probe GET (the health body is taken to be a
JSON object, which the spread in checkHealth assumes). -/
inductive HealthProbeOutcome where
  | success (fields : Obj JValue)
  | failure

/-- `SelfHostedStrategy.checkHealth`: spreads the probe body and adds the
endpoint on success; returns a structured unhealthy result (never raises)
on any failure. -/
def shCheckHealth (st : SHState) (outcome : HealthProbeOutcome) : JValue :=
  match outcome with
  | HealthProbeOutcome.success fs =>
    JValue.obj (objMerge fs [("endpoint", JValue.str st.url)])
  | HealthProbeOutcome.failure =>
    JValue.obj [
      ("status", JValue.str "unhealthy"),
      ("error", JValue.str "Cannot connect to proxy"),
      ("endpoint", JValue.str st.url)]

/-! ## Cerebras (managed-cloud) strategy (cerebras-strategy.js) -/

/-- The state a `CerebrasStrategy` instance captures at construction. -/
structure CerebrasState where
  apiKey : String
  apiUrl : String
deriving DecidableEq, Repr

/-- `CerebrasStrategy` constructor: rejects an absent or blank apiKey, then
captures the key and the api url (with its default). -/
def mkCerebras (c : BackendCfg) : Except String CerebrasState :=
  match c.apiKey with
  | none => Except.error "Cerebras strategy requires apiKey"
  | some k =>
    if k == "" || jsTrim k == "" then Except.error "Cerebras strategy requires apiKey"
    else Except.ok { apiKey := k, apiUrl := jsOr c.apiUrl "https://api.cerebras.ai/v1" }

/-- The provider's `choices[i].message` object. -/
structure CMessage where
  content : Option JValue := none

/-- The provider's `choices[i]` object. -/
structure CChoice where
  message : Option CMessage := none
  finish_reason : Option String := none

/-- The provider's `usage` object. -/
structure CUsage where
  prompt_tokens : Option Int := none
  completion_tokens : Option Int := none

/-- A Cerebras 2xx response body as `transformResponse` reads it. -/
structure CerebrasBody where
  id : Option JValue := none
  model : Option JValue := none
  choices : Option (List CChoice) := none
  usage : Option CUsage := none

/-- One block of the normalized `content` list. -/
structure ContentBlock where
  type : String
  text : Option JValue

/-- The normalized `usage` object. -/
structure TokenUsage where
  input_tokens : Int
  output_tokens : Int
deriving DecidableEq, Repr

/-- The Anthropic-compatible envelope built by
`CerebrasStrategy.transformResponse`.  `Option` fields model values copied
from the provider body that may be absent there. -/
structure NormalizedResponse where
  id : Option JValue
  type : String
  role : String
  content : List ContentBlock
  model : Option JValue
  stop_reason : Option String
  stop_sequence : Option String
  usage : TokenUsage

/-- `CerebrasStrategy.transformResponse`: reads `choices[0].message.content`
(a missing `choices` or `message` raises a TypeError, caught by the caller),
maps `finish_reason == "stop"` to `"end_turn"` passing any other value
through, and defaults absent token counters to 0. -/
def transformResponse (r : CerebrasBody) : Except String NormalizedResponse :=
  match r.choices with
  | none => Except.error "Cannot read properties of undefined (reading '0')"
  | some choices =>
    match choices with
    | [] => Except.error "Cannot read properties of undefined (reading 'message')"
    | choice :: _ =>
      match choice.message with
      | none => Except.error "Cannot read properties of undefined (reading 'content')"
      | some m =>
        Except.ok {
          id := r.id
          type := "message"
          role := "assistant"
          content := [{ type := "text", text := m.content }]
          model := r.model
          stop_reason :=
            if choice.finish_reason == some "stop" then some "end_turn"
            else choice.finish_reason
          stop_sequence := none
          usage := {
            input_tokens := (r.usage.bind CUsage.prompt_tokens).getD 0
            output_tokens := (r.usage.bind CUsage.completion_tokens).getD 0 } }

/-- `CerebrasStrategy.handleError(error)`: 401 / 429 / 503 / other HTTP /
connection-level / generic classification.  The branch order mirrors the
source; no branch reads the configured apiKey. -/
def cerebrasHandleError (e : AxiosError) : SafeError :=
  match e.response with
  | some (status, d) =>
    if status == 401 then
      { message := "Cerebras API authentication failed: " ++ jsOr d.error "Invalid credentials"
          ++ ". Please check your API key configuration."
        recommendations := none }
    else if status == 429 then
      { message := "Cerebras API rate limit exceeded. Please try again later or consider using a self-hosted backend."
        recommendations := some [
          "Wait before retrying the request",
          "Switch to self-hosted backend: llm-proxy switch self-hosted",
          "Consider upgrading your Cerebras plan"] }
    else if status == 503 then
      { message := "Cerebras API service unavailable. The service may be experiencing issues."
        recommendations := some [
          "Try switching to self-hosted backend: llm-proxy switch self-hosted",
          "Check Cerebras status page for service issues",
          "Consider using vast-ai or runpod backends for reliability"] }
    else
      { message := "Cerebras API error (" ++ toString status ++ "): " ++ jsOr d.error "Unknown error"
        recommendations := some [
          "Check Cerebras API documentation",
          "Try switching to self-hosted backend: llm-proxy switch self-hosted"] }
  | none =>
    if e.code == some "ECONNREFUSED" || e.code == some "ENOTFOUND" then
      { message := "Cannot connect to Cerebras API. Please check your internet connection."
        recommendations := some [
          "Check your internet connection",
          "Verify DNS resolution",
          "Try switching to self-hosted backend: llm-proxy switch self-hosted"] }
    else
      { message := "Cerebras API request failed: " ++ jsShow e.message
        recommendations := some [
          "Try switching to self-hosted backend: llm-proxy switch self-hosted"] }

/-- The outbound POST `CerebrasStrategy.executeRequest` performs: note the
bearer header carries the configured apiKey. -/
structure CerebrasRequest where
  url : String
  authHeader : String
  model : JValue
  messages : List JValue
  max_tokens : Option JValue
  temperature : Option JValue

/-- Builds the provider-native request: model with its default, undefined
option fields removed, bearer-token auth. -/
def buildCerebrasRequest (st : CerebrasState) (messages : List JValue)
    (options : ReqOptions) : CerebrasRequest :=
  { url := st.apiUrl ++ "/chat/completions"
    authHeader := "Bearer " ++ st.apiKey
    model := jsOrJ options.model (JValue.str "qwen-3-coder-480b")
    messages := messages
    max_tokens := options.max_tokens
    temperature := options.temperature }

/-- The outcome of the outbound POST of the Cerebras strategy. -/
inductive CerebrasOutcome where
  | success (body : CerebrasBody)
  | failure (e : AxiosError)

/-- `CerebrasStrategy.executeRequest`: the request it sends, paired with its
result — the transformed body on success (a TypeError raised while
transforming is caught and classified through the generic branch), the
classified error otherwise. -/
def cerebrasExecuteRequest (st : CerebrasState) (messages : List JValue)
    (options : ReqOptions) (outcome : CerebrasOutcome) :
    CerebrasRequest × Except SafeError NormalizedResponse :=
  (buildCerebrasRequest st messages options,
    match outcome with
    | CerebrasOutcome.success b =>
      match transformResponse b with
      | Except.ok r => Except.ok r
      | Except.error msg =>
        Except.error (cerebrasHandleError { code := none, message := some msg, response := none })
    | CerebrasOutcome.failure e => Except.error (cerebrasHandleError e))

/-! ## Backend factory (backend-factory.js) -/

/-- A constructed strategy instance, tagged by its family. -/
inductive StrategyInstance where
  | cerebras (st : CerebrasState)
  | selfHosted (st : SHState)
deriving DecidableEq, Repr

/-- An error thrown by the factory: the unknown-type error additionally
carries a `supportedTypes` property. -/
structure FactoryError where
  message : String
  supportedTypes : Option (List String) := none
deriving DecidableEq, Repr

/-- `BackendFactory.getSupportedTypes()`. -/
def getSupportedTypes : List String := ["cerebras", "self-hosted"]

/-- `BackendFactory.createStrategy(config)`: rejects a null config or a falsy
`type` with the missing-type message, dispatches the two known types to the
strategy constructors (whose own validation errors pass through), and for
any other type throws the unknown-type error carrying `supportedTypes`. -/
def createStrategy (cfg : Option BackendCfg) : Except FactoryError StrategyInstance :=
  match cfg with
  | none => Except.error { message := "Backend configuration missing required field: type" }
  | some c =>
    if !(truthyS c.type) then
      Except.error { message := "Backend configuration missing required field: type" }
    else
      match c.type.getD "" with
      | "cerebras" =>
        match mkCerebras c with
        | Except.ok st => Except.ok (StrategyInstance.cerebras st)
        | Except.error m => Except.error { message := m }
      | "self-hosted" =>
        match mkSelfHosted c with
        | Except.ok st => Except.ok (StrategyInstance.selfHosted st)
        | Except.error m => Except.error { message := m }
      | t =>
        Except.error { message := "Unknown backend type: " ++ t
                       supportedTypes := some getSupportedTypes }

/-! ## Proxy server handlers (proxy-server.js) -/

/-- What the active strategy offers the `/health` route: no `checkHealth`
method, a `checkHealth` that resolves to a value, or one that rejects. -/
inductive HealthCapability where
  | noCheck
  | checkReturns (v : JValue)
  | checkThrows (msg : String)

/-- The `/health` reply: the HTTP status the route answers with, the overall
status string, the active backend name and the optional backend health. -/
structure HealthReply where
  httpStatus : Nat
  status : String
  backend : String
  backendHealth : Option JValue

/-- The `GET /health` handler: starts from `status:"healthy"`, attaches the
resolved backend health verbatim, and downgrades to `"degraded"` only when
`checkHealth` rejects; the route itself always answers 200. -/
def healthHandler (backendName : String) (cap : HealthCapability) : HealthReply :=
  match cap with
  | HealthCapability.noCheck =>
    { httpStatus := 200, status := "healthy", backend := backendName, backendHealth := none }
  | HealthCapability.checkReturns v =>
    { httpStatus := 200, status := "healthy", backend := backendName, backendHealth := some v }
  | HealthCapability.checkThrows m =>
    { httpStatus := 200, status := "degraded", backend := backendName
      backendHealth := some (JValue.obj [
        ("status", JValue.str "unhealthy"), ("error", JValue.str m)]) }

/-- A parsed `POST /v1/messages` request body. -/
structure MessagesBody where
  messages : Option JValue := none
  max_tokens : Option JValue := none
  temperature : Option JValue := none
  model : Option JValue := none

/-- The reply of the `/v1/messages` route: HTTP status and JSON body. -/
structure MessagesReply where
  httpStatus : Nat
  body : JValue

/-- The validation failure message of the `/v1/messages` route. -/
def messagesValidationMsg : String :=
  "Messages field is required and must be a non-empty array"

/-- The fallback recommendations attached when a strategy error carries none. -/
def defaultRecommendations : List String :=
  ["Check backend configuration", "Try switching to a different backend"]

/-- The `messages` check `!messages || !Array.isArray(messages) ||
messages.length === 0`: since arrays are always truthy in JS, the three
clauses reject exactly everything but a present non-empty array. -/
def invalidMessagesField (o : Option JValue) : Bool :=
  match o with
  | some (JValue.arr (_ :: _)) => false
  | _ => true

/-- The `POST /v1/messages` handler, parametrized by the active strategy's
`executeRequest` (so that "the strategy is never invoked" is expressible):
replies 400 on an invalid `messages` field, 200 with the strategy's result,
or 500 with the error message and recommendations. -/
def messagesHandler (b : MessagesBody)
    (strat : List JValue → ReqOptions → Except SafeError JValue) : MessagesReply :=
  match b.messages with
  | some (JValue.arr (x :: xs)) =>
    let options : ReqOptions :=
      { max_tokens := b.max_tokens
        temperature := b.temperature
        model := some (jsOrJ b.model (JValue.str "qwen3-coder")) }
    match strat (x :: xs) options with
    | Except.ok r => { httpStatus := 200, body := r }
    | Except.error e =>
      { httpStatus := 500
        body := JValue.obj [
          ("error", JValue.str e.message),
          ("recommendations",
            JValue.arr ((e.recommendations.getD defaultRecommendations).map JValue.str))] }
  | _ =>
    { httpStatus := 400
      body := JValue.obj [("error", JValue.str messagesValidationMsg)] }

/-! ## Schema and classification predicates (spec sections 4.2 and 7) -/

/-- The normalized-envelope check on the structured response the Cerebras
strategy builds: all required fields present, `content` a non-empty list of
present `text` blocks. -/
def isNormalizedResponse (r : NormalizedResponse) : Bool :=
  r.id.isSome && (r.type == "message") && (r.role == "assistant") &&
    !r.content.isEmpty &&
    r.content.all (fun b => (b.type == "text") && b.text.isSome) &&
    r.model.isSome && r.stop_reason.isSome

/-- The normalized-envelope check on an untyped JSON value (the form a
self-hosted backend's verbatim body would have to satisfy). -/
def isNormalizedJson (v : JValue) : Bool :=
  match v with
  | JValue.obj fs =>
    (alookup fs "id").isSome &&
    (match alookup fs "type" with
      | some (JValue.str s) => s == "message"
      | _ => false) &&
    (match alookup fs "role" with
      | some (JValue.str s) => s == "assistant"
      | _ => false) &&
    (match alookup fs "content" with
      | some (JValue.arr (b :: bs)) =>
        (b :: bs).all (fun blk =>
          match blk with
          | JValue.obj bf =>
            (match alookup bf "type" with
              | some (JValue.str t) => t == "text"
              | _ => false) && (alookup bf "text").isSome
          | _ => false)
      | _ => false) &&
    (alookup fs "model").isSome &&
    (alookup fs "stop_reason").isSome &&
    (alookup fs "stop_sequence").isSome &&
    (match alookup fs "usage" with
      | some (JValue.obj uf) =>
        (alookup uf "input_tokens").isSome && (alookup uf "output_tokens").isSome
      | _ => false)
  | _ => false

/-- A 2xx Cerebras body is well-formed for the translation contract: `id` and
`model` present, a first choice with a present `message.content` and a
present `finish_reason`. -/
def wfCerebrasBody (r : CerebrasBody) : Bool :=
  r.id.isSome && r.model.isSome &&
    (match r.choices with
      | some (c :: _) =>
        (match c.message with
          | some m => m.content.isSome
          | none => false) && c.finish_reason.isSome
      | _ => false)

/-- The error taxonomy of the managed-cloud strategy (spec section 7): every
thrown error is one of six template shapes — authentication (401), rate
limit (429), unavailability (503), protocol (other HTTP status), connection
failure, or the generic fallback. -/
def IsCerebrasClassified (e : SafeError) : Prop :=
  (∃ d, e = { message := "Cerebras API authentication failed: " ++ d
                ++ ". Please check your API key configuration."
              recommendations := none })
  ∨ (e.message = "Cerebras API rate limit exceeded. Please try again later or consider using a self-hosted backend."
      ∧ e.recommendations.isSome)
  ∨ (e.message = "Cerebras API service unavailable. The service may be experiencing issues."
      ∧ e.recommendations.isSome)
  ∨ (∃ (st : Nat) (d : String), e.message = "Cerebras API error (" ++ toString st ++ "): " ++ d
      ∧ e.recommendations.isSome)
  ∨ (e.message = "Cannot connect to Cerebras API. Please check your internet connection."
      ∧ e.recommendations.isSome)
  ∨ (∃ m, e.message = "Cerebras API request failed: " ++ m ∧ e.recommendations.isSome)

/-- The error taxonomy of the self-hosted strategy (spec section 7): every
thrown error is a connection, timeout, model-not-loaded, protocol or generic
error, each with recommendations. -/
def IsSelfHostedClassified (e : SafeError) : Prop :=
  (∃ u, e.message = "Cannot connect to self-hosted proxy at " ++ u
      ++ ". Please ensure the proxy is running." ∧ e.recommendations.isSome)
  ∨ (e.message = "Self-hosted proxy request timed out. The model may be loading or overloaded."
      ∧ e.recommendations.isSome)
  ∨ (∃ d, e.message = "Model not loaded on self-hosted proxy: " ++ d ∧ e.recommendations.isSome)
  ∨ (∃ (st : Nat) (d : String), e.message = "Self-hosted proxy error (" ++ toString st ++ "): " ++ d
      ∧ e.recommendations.isSome)
  ∨ (∃ m, e.message = "Self-hosted proxy request failed: " ++ m ∧ e.recommendations.isSome)

/-! ## Lookup lemmas -/

theorem alookup_append {α : Type} (xs ys : Obj α) (k : String) :
    alookup (xs ++ ys) k =
      match alookup xs k with
      | some v => some v
      | none => alookup ys k := by
  induction xs with
  | nil => simp [alookup]
  | cons p t ih =>
    by_cases h : p.1 == k
    · simp [alookup, h]
    · simp [alookup, h, ih]

theorem alookup_filter_absent {α : Type} (a b : Obj α) (k : String) :
    alookup (a.filter (fun p => (alookup b p.1).isNone)) k =
      if (alookup b k).isSome then none else alookup a k := by
  induction a with
  | nil => simp [alookup]
  | cons p t ih =>
    by_cases hk : p.1 == k
    · have hk' : p.1 = k := by simpa using hk
      subst hk'
      cases hb : alookup b p.1 with
      | none => simp [List.filter, alookup, hb]
      | some v => simp [List.filter, alookup, hb, ih]
    · cases hb : alookup b p.1 with
      | none => simp [List.filter, alookup, hb, hk, ih]
      | some v => simp [List.filter, alookup, hb, hk, ih]

theorem alookup_objMerge {α : Type} (a b : Obj α) (k : String) :
    alookup (objMerge a b) k =
      match alookup b k with
      | some v => some v
      | none => alookup a k := by
  unfold objMerge
  rw [alookup_append, alookup_filter_absent]
  cases hb : alookup b k with
  | none =>
    simp only [hb, Option.isSome_none, Bool.false_eq_true, if_false]
    cases alookup a k <;> rfl
  | some v => simp [hb]

theorem alookup_fold_fill (ds : Obj BackendCfg) :
    ∀ (acc : Obj BackendCfg) (k : String) (v : BackendCfg),
      alookup acc k = some v →
      alookup (ds.foldl
        (fun acc p => if (alookup acc p.1).isNone then acc ++ [p] else acc) acc) k = some v := by
  induction ds with
  | nil => intro acc k v h; simpa using h
  | cons d t ih =>
    intro acc k v h
    simp only [List.foldl]
    cases hd : (alookup acc d.1).isNone with
    | true =>
      simp only [hd, if_true]
      exact ih _ _ _ (by rw [alookup_append, h])
    | false =>
      simp only [hd, Bool.false_eq_true, if_false]
      exact ih _ _ _ h

theorem alookup_fillDefaults (c : Config) (k : String) (v : BackendCfg)
    (h : alookup (c.backends.getD []) k = some v) :
    alookup ((fillDefaults c).backends.getD []) k = some v := by
  unfold fillDefaults
  exact alookup_fold_fill _ _ _ _ h

/-! ## Claim theorems -/

/-- C5: the error thrown by any failure branch of the managed-cloud
strategy's executeRequest — 401, 429, 503, other HTTP status, connection
failure, or the generic fallback — is identical for any two configured API
keys: the configured key value cannot flow into the error's message or
recommendations (while the outbound request itself does carry the key in its
bearer header). -/
theorem cerebras_error_key_noninterference (k₁ k₂ u : String) (messages : List JValue)
    (options : ReqOptions) (outcome : CerebrasOutcome) :
    (cerebrasExecuteRequest { apiKey := k₁, apiUrl := u } messages options outcome).2
      = (cerebrasExecuteRequest { apiKey := k₂, apiUrl := u } messages options outcome).2
    ∧ (buildCerebrasRequest { apiKey := k₁, apiUrl := u } messages options).authHeader
      = "Bearer " ++ k₁ := ⟨rfl, rfl⟩

/-- C6 (amended): the `/health` route always answers HTTP 200; it reports
overall status "degraded" exactly when the active strategy's checkHealth
rejects; a checkHealth that resolves — even to an unhealthy result — leaves
the overall status "healthy" with the result attached as backendHealth; a
strategy without checkHealth is reported healthy with no backendHealth. -/
theorem health_endpoint_degrade (name : String) (cap : HealthCapability) :
    (healthHandler name cap).httpStatus = 200
    ∧ ((healthHandler name cap).status = "degraded" ↔ ∃ m, cap = HealthCapability.checkThrows m)
    ∧ (∀ v, cap = HealthCapability.checkReturns v →
        (healthHandler name cap).backendHealth = some v
          ∧ (healthHandler name cap).status = "healthy")
    ∧ (cap = HealthCapability.noCheck → (healthHandler name cap).backendHealth = none) := by
  cases cap with
  | noCheck =>
    refine ⟨rfl, ⟨?_, ?_⟩, ?_, fun _ => rfl⟩
    · intro h
      have h' : ("healthy" : String) = "degraded" := h
      exact absurd h' (by decide)
    · rintro ⟨m, h⟩; cases h
    · intro v h; cases h
  | checkReturns v =>
    refine ⟨rfl, ⟨?_, ?_⟩, ?_, ?_⟩
    · intro h
      have h' : ("healthy" : String) = "degraded" := h
      exact absurd h' (by decide)
    · rintro ⟨m, h⟩; cases h
    · intro v' h
      injection h with h'
      subst h'
      exact ⟨rfl, rfl⟩
    · intro h; cases h
  | checkThrows m =>
    refine ⟨rfl, ⟨fun _ => ⟨m, rfl⟩, fun _ => rfl⟩, ?_, ?_⟩
    · intro v h; cases h
    · intro h; cases h

/-- C6 witness: a rejecting checkHealth yields 200 and "degraded". -/
theorem health_endpoint_degrade_instance :
    (healthHandler "self-hosted" (HealthCapability.checkThrows "boom")).status = "degraded"
    ∧ (healthHandler "self-hosted" (HealthCapability.checkThrows "boom")).httpStatus = 200 := by
  obtain ⟨h200, hiff, -, -⟩ :=
    health_endpoint_degrade "self-hosted" (HealthCapability.checkThrows "boom")
  exact ⟨hiff.mpr ⟨"boom", rfl⟩, h200⟩

/-- C6 counterexample: when the active strategy's checkHealth resolves to an
unhealthy result (exactly what the self-hosted strategy's checkHealth
returns when it cannot reach the backend), the `/health` route reports
overall status "healthy", not "degraded" as the claim states. -/
theorem health_unhealthy_result_not_degraded :
    shCheckHealth { url := "http://localhost:8000", description := "Self-hosted proxy" }
        HealthProbeOutcome.failure
      = JValue.obj [
          ("status", JValue.str "unhealthy"),
          ("error", JValue.str "Cannot connect to proxy"),
          ("endpoint", JValue.str "http://localhost:8000")]
    ∧ (healthHandler "self-hosted"
        (HealthCapability.checkReturns
          (shCheckHealth { url := "http://localhost:8000", description := "Self-hosted proxy" }
            HealthProbeOutcome.failure))).status = "healthy"
    ∧ ((healthHandler "self-hosted"
        (HealthCapability.checkReturns
          (shCheckHealth { url := "http://localhost:8000", description := "Self-hosted proxy" }
            HealthProbeOutcome.failure))).status = "degraded" → False) := by
  refine ⟨rfl, rfl, ?_⟩
  intro h
  exact absurd h (by decide)

/-- C7 (amended): the factory dispatches a cerebras-typed config with a
non-blank apiKey to a Cerebras instance and a self-hosted-typed config with
a non-blank, syntactically valid url to a SelfHosted instance; a present but
unrecognized type throws an error whose message names the unknown type and
which carries the supported type names on its `supportedTypes` property (the
message itself does not list them); an absent type throws the distinct
missing-type message. -/
theorem factory_dispatch (c : BackendCfg) :
    (∀ k, c.type = some "cerebras" → c.apiKey = some k → k ≠ "" → jsTrim k ≠ "" →
      createStrategy (some c)
        = Except.ok (StrategyInstance.cerebras
            { apiKey := k, apiUrl := jsOr c.apiUrl "https://api.cerebras.ai/v1" }))
    ∧ (∀ u, c.type = some "self-hosted" → c.url = some u → u ≠ "" → jsTrim u ≠ "" →
        isValidURL u = true →
        createStrategy (some c)
          = Except.ok (StrategyInstance.selfHosted
              { url := u, description := jsOr c.description "Self-hosted proxy" }))
    ∧ (∀ t, c.type = some t → t ≠ "" → t ≠ "cerebras" → t ≠ "self-hosted" →
        createStrategy (some c)
          = Except.error { message := "Unknown backend type: " ++ t
                           supportedTypes := some getSupportedTypes })
    ∧ (c.type = none →
        createStrategy (some c)
          = Except.error { message := "Backend configuration missing required field: type"
                           supportedTypes := none })
    ∧ createStrategy none
        = Except.error { message := "Backend configuration missing required field: type"
                         supportedTypes := none }
    ∧ ("Unknown backend type: unknown" = "Backend configuration missing required field: type"
        → False) := by
  refine ⟨?_, ?_, ?_, ?_, rfl, fun h => absurd h (by decide)⟩
  · intro k ht hk hne htr
    simp [createStrategy, ht, truthyS, hne, mkCerebras, hk, htr]
  · intro u ht hu hne htr hurl
    simp [createStrategy, ht, truthyS, hne, mkSelfHosted, hu, htr, hurl]
  · intro t ht hne hc hs
    have hcond : (!(truthyS (some t))) = false := by
      simp [truthyS, hne]
    simp only [createStrategy, ht, hcond, Bool.false_eq_true, if_false, Option.getD_some]
  · intro ht
    simp [createStrategy, ht, truthyS]

/-- C7 witness: the four dispatch outcomes at concrete configurations. -/
theorem factory_dispatch_instance :
    createStrategy (some { type := some "cerebras", apiKey := some "x" })
      = Except.ok (StrategyInstance.cerebras
          { apiKey := "x", apiUrl := "https://api.cerebras.ai/v1" })
    ∧ createStrategy (some { type := some "self-hosted", url := some "http://h:1" })
      = Except.ok (StrategyInstance.selfHosted
          { url := "http://h:1", description := "Self-hosted proxy" })
    ∧ createStrategy (some { type := some "unknown" })
      = Except.error { message := "Unknown backend type: unknown"
                       supportedTypes := some getSupportedTypes }
    ∧ createStrategy (some {})
      = Except.error { message := "Backend configuration missing required field: type"
                       supportedTypes := none } := by
  obtain ⟨h₁, -, -, -, -, -⟩ := factory_dispatch { type := some "cerebras", apiKey := some "x" }
  obtain ⟨-, h₂, -, -, -, -⟩ :=
    factory_dispatch { type := some "self-hosted", url := some "http://h:1" }
  obtain ⟨-, -, h₃, -, -, -⟩ := factory_dispatch { type := some "unknown" }
  obtain ⟨-, -, -, h₄, -, -⟩ := factory_dispatch ({} : BackendCfg)
  exact ⟨h₁ "x" rfl rfl (by decide) (by decide),
    h₂ "http://h:1" rfl rfl (by decide) (by decide) (by decide),
    h₃ "unknown" rfl (by decide) (by decide) (by decide),
    h₄ rfl⟩

/-- C7 counterexample: the unknown-type error's message does not list the
supported type names — they are carried only on the error's
`supportedTypes` property — so the claim's "message listing the supported
type names" fails. -/
theorem factory_unknown_message_lacks_types :
    createStrategy (some { type := some "unknown" })
      = Except.error { message := "Unknown backend type: unknown"
                       supportedTypes := some ["cerebras", "self-hosted"] }
    ∧ includesSubstr "Unknown backend type: unknown" "cerebras" = false
    ∧ includesSubstr "Unknown backend type: unknown" "self-hosted" = false := by
  refine ⟨rfl, by decide, by decide⟩

/-- C8: a `POST /v1/messages` body whose `messages` field is absent, not an
array, or an empty array is answered 400 with an error message mentioning
"messages", and the reply is the same whatever the active strategy is — the
strategy's executeRequest is never invoked. -/
theorem messages_validation_rejects (b : MessagesBody)
    (h : invalidMessagesField b.messages = true)
    (s₁ s₂ : List JValue → ReqOptions → Except SafeError JValue) :
    messagesHandler b s₁ = messagesHandler b s₂
    ∧ (messagesHandler b s₁).httpStatus = 400
    ∧ (messagesHandler b s₁).body
        = JValue.obj [("error", JValue.str messagesValidationMsg)]
    ∧ includesSubstr (lowerStr messagesValidationMsg) "messages" = true := by
  refine ⟨?_, ?_, ?_, by decide⟩ <;>
  · cases hm : b.messages with
    | none => simp [messagesHandler, hm]
    | some v =>
      cases v with
      | arr xs =>
        cases xs with
        | nil => simp [messagesHandler, hm]
        | cons x t =>
          rw [hm] at h
          exact absurd h (by simp [invalidMessagesField])
      | null => simp [messagesHandler, hm]
      | bool bb => simp [messagesHandler, hm]
      | num n => simp [messagesHandler, hm]
      | str s => simp [messagesHandler, hm]
      | obj fs => simp [messagesHandler, hm]

/-- A configuration holds a secret-shaped field: some backend entry carries a
present, non-empty apiKey, password or token. -/
def HasSecretEntry (c : Config) : Prop :=
  ∃ bs name b, c.backends = some bs ∧ (name, b) ∈ bs ∧
    (truthyS b.apiKey = true ∨ truthyS b.password = true ∨ truthyS b.token = true)

/-- C9: the save operation chmods the persisted configuration file to owner
read/write only (0o600) exactly when some backend entry contains a
secret-shaped field (apiKey, password or token), and writes the
configuration unchanged. -/
theorem save_restricts_secret_configs (c : Config) :
    ((savePure c).mode = some 0o600 ↔ HasSecretEntry c)
    ∧ (savePure c).written = c := by
  refine ⟨⟨?_, ?_⟩, rfl⟩
  · intro h
    cases hs : configContainsSecrets c with
    | false =>
      have hmode : (savePure c).mode = none := by simp [savePure, hs]
      rw [hmode] at h
      cases h
    | true =>
      unfold configContainsSecrets at hs
      cases hb : c.backends with
      | none => rw [hb] at hs; cases hs
      | some bs =>
        rw [hb] at hs
        rw [List.any_eq_true] at hs
        obtain ⟨p, hmem, hp⟩ := hs
        refine ⟨bs, p.1, p.2, hb, by simpa using hmem, ?_⟩
        exact or_assoc.mp (by simpa using hp)
  · rintro ⟨bs, name, b, hbs, hmem, hsec⟩
    have hs : configContainsSecrets c = true := by
      unfold configContainsSecrets
      rw [hbs, List.any_eq_true]
      refine ⟨(name, b), hmem, ?_⟩
      rcases hsec with h | h | h <;> simp [h]
    simp [savePure, hs]

/-- C9 witness: a configuration whose cerebras entry holds an apiKey is
persisted with mode 0o600. -/
theorem save_restricts_secret_configs_instance :
    (savePure { backend := some "cerebras"
                backends := some [("cerebras",
                  { type := some "cerebras", apiKey := some "sk-123" })] }).mode
      = some 0o600 := by
  exact (save_restricts_secret_configs _).1.mpr
    ⟨[("cerebras", { type := some "cerebras", apiKey := some "sk-123" })], "cerebras",
      { type := some "cerebras", apiKey := some "sk-123" }, rfl, by simp, Or.inl (by decide)⟩

/-- C2: on a successful managed-cloud response with a first choice carrying a
message, transformResponse maps finish_reason "stop" to stop_reason
"end_turn" and passes any other finish_reason through unchanged, sets
content to the single text block with the choice's message content, and maps
prompt_tokens/completion_tokens to input_tokens/output_tokens defaulting
absent counters to 0. -/
theorem cerebras_transform_maps (r : CerebrasBody) (choice : CChoice)
    (rest : List CChoice) (m : CMessage)
    (hc : r.choices = some (choice :: rest)) (hm : choice.message = some m) :
    ∃ out, transformResponse r = Except.ok out
      ∧ (choice.finish_reason = some "stop" → out.stop_reason = some "end_turn")
      ∧ (choice.finish_reason ≠ some "stop" → out.stop_reason = choice.finish_reason)
      ∧ out.content = [{ type := "text", text := m.content }]
      ∧ (∀ u pt ct, r.usage = some u → u.prompt_tokens = some pt →
          u.completion_tokens = some ct →
          out.usage = { input_tokens := pt, output_tokens := ct })
      ∧ (r.usage = none → out.usage = { input_tokens := 0, output_tokens := 0 }) := by
  refine ⟨{ id := r.id
            type := "message"
            role := "assistant"
            content := [{ type := "text", text := m.content }]
            model := r.model
            stop_reason :=
              if choice.finish_reason == some "stop" then some "end_turn"
              else choice.finish_reason
            stop_sequence := none
            usage := { input_tokens := (r.usage.bind CUsage.prompt_tokens).getD 0
                       output_tokens := (r.usage.bind CUsage.completion_tokens).getD 0 } },
    ?_, ?_, ?_, rfl, ?_, ?_⟩
  · simp [transformResponse, hc, hm]
  · intro h; simp [h]
  · intro h
    have hb : (choice.finish_reason == some "stop") = false := beq_eq_false_iff_ne.mpr h
    simp [hb]
  · intro u pt ct hu hp hct
    simp [hu, hp, hct]
  · intro h; simp [h]

/-- C2 witness (Scenario A): usage (3, 1) and finish_reason "stop" yield
usage (3, 1), stop_reason "end_turn" and the single "hi" text block. -/
theorem cerebras_transform_scenarioA :
    ∃ out, transformResponse
        { id := some (JValue.str "chatcmpl-1")
          model := some (JValue.str "qwen-3-coder-480b")
          choices := some [{ message := some { content := some (JValue.str "hi") }
                             finish_reason := some "stop" }]
          usage := some { prompt_tokens := some 3, completion_tokens := some 1 } }
      = Except.ok out
      ∧ out.stop_reason = some "end_turn"
      ∧ out.usage = { input_tokens := 3, output_tokens := 1 }
      ∧ out.content = [{ type := "text", text := some (JValue.str "hi") }] := by
  obtain ⟨out, h1, h2, -, h4, h5, -⟩ :=
    cerebras_transform_maps
      { id := some (JValue.str "chatcmpl-1")
        model := some (JValue.str "qwen-3-coder-480b")
        choices := some [{ message := some { content := some (JValue.str "hi") }
                           finish_reason := some "stop" }]
        usage := some { prompt_tokens := some 3, completion_tokens := some 1 } }
      { message := some { content := some (JValue.str "hi") }
        finish_reason := some "stop" }
      [] { content := some (JValue.str "hi") } rfl rfl
  exact ⟨out, h1, h2 rfl, h5 _ 3 1 rfl rfl rfl, h4⟩

theorem cerebrasHandleError_classified (e : AxiosError) :
    IsCerebrasClassified (cerebrasHandleError e) := by
  obtain ⟨code, msg, resp⟩ := e
  unfold IsCerebrasClassified cerebrasHandleError
  cases resp with
  | some sd =>
    obtain ⟨status, d⟩ := sd
    dsimp only
    split
    · exact Or.inl ⟨_, rfl⟩
    · split
      · exact Or.inr (Or.inl ⟨rfl, rfl⟩)
      · split
        · exact Or.inr (Or.inr (Or.inl ⟨rfl, rfl⟩))
        · exact Or.inr (Or.inr (Or.inr (Or.inl ⟨status, _, rfl, rfl⟩)))
  | none =>
    dsimp only
    split
    · exact Or.inr (Or.inr (Or.inr (Or.inr (Or.inl ⟨rfl, rfl⟩))))
    · exact Or.inr (Or.inr (Or.inr (Or.inr (Or.inr ⟨_, rfl, rfl⟩))))

theorem shHandleError_classified (st : SHState) (e : AxiosError) :
    IsSelfHostedClassified (shHandleError st e) := by
  obtain ⟨code, msg, resp⟩ := e
  unfold IsSelfHostedClassified shHandleError
  dsimp only
  split
  · exact Or.inl ⟨st.url, rfl, rfl⟩
  · split
    · exact Or.inr (Or.inl ⟨rfl, rfl⟩)
    · cases resp with
      | some sd =>
        obtain ⟨status, d⟩ := sd
        dsimp only
        split
        · exact Or.inr (Or.inr (Or.inl ⟨_, rfl, rfl⟩))
        · exact Or.inr (Or.inr (Or.inr (Or.inl ⟨status, _, rfl, rfl⟩)))
      | none =>
        exact Or.inr (Or.inr (Or.inr (Or.inr ⟨_, rfl, rfl⟩)))

/-- C1 (amended): both strategy variants throw only errors of the classified
taxonomy on any failure outcome; the managed-cloud variant returns a value
matching the NormalizedResponse schema whenever the provider's success body
is well-formed (id, model, choices[0].message.content and finish_reason
present); the self-hosted variant returns the backend's success body
verbatim, so its result matches the schema only when the backend's body
already does. -/
theorem executeRequest_shape (stc : CerebrasState) (sts : SHState)
    (messages : List JValue) (options : ReqOptions) :
    (∀ outcome e, (cerebrasExecuteRequest stc messages options outcome).2 = Except.error e →
        IsCerebrasClassified e)
    ∧ (∀ b, wfCerebrasBody b = true →
        ∃ r, (cerebrasExecuteRequest stc messages options (CerebrasOutcome.success b)).2
              = Except.ok r
          ∧ isNormalizedResponse r = true)
    ∧ (∀ outcome e, (shExecuteRequest sts messages options outcome).2 = Except.error e →
        IsSelfHostedClassified e)
    ∧ (∀ b, (shExecuteRequest sts messages options (SHOutcome.success b)).2 = Except.ok b) := by
  refine ⟨?_, ?_, ?_, fun b => rfl⟩
  · intro outcome e h
    cases outcome with
    | success b =>
      simp only [cerebrasExecuteRequest] at h
      cases ht : transformResponse b with
      | ok r => rw [ht] at h; cases h
      | error msg =>
        rw [ht] at h
        injection h with h'
        rw [← h']
        exact cerebrasHandleError_classified _
    | failure e' =>
      simp only [cerebrasExecuteRequest] at h
      injection h with h'
      rw [← h']
      exact cerebrasHandleError_classified _
  · intro b hwf
    obtain ⟨bid, bmodel, bchoices, busage⟩ := b
    dsimp only [wfCerebrasBody] at hwf
    cases bchoices with
    | none => simp at hwf
    | some cs =>
      cases cs with
      | nil => simp at hwf
      | cons c rest =>
        dsimp only at hwf
        cases hcm : c.message with
        | none => rw [hcm] at hwf; simp at hwf
        | some m =>
          rw [hcm] at hwf
          simp only [Bool.and_eq_true] at hwf
          obtain ⟨⟨hid, hmodel⟩, hcontent, hfr⟩ := hwf
          refine ⟨{ id := bid
                    type := "message"
                    role := "assistant"
                    content := [{ type := "text", text := m.content }]
                    model := bmodel
                    stop_reason :=
                      if c.finish_reason == some "stop" then some "end_turn"
                      else c.finish_reason
                    stop_sequence := none
                    usage := { input_tokens := (busage.bind CUsage.prompt_tokens).getD 0
                               output_tokens := (busage.bind CUsage.completion_tokens).getD 0 } },
            ?_, ?_⟩
          · simp [cerebrasExecuteRequest, transformResponse, hcm]
          · simp only [isNormalizedResponse, hid, hmodel, hcontent, List.all_cons, List.all_nil,
              List.isEmpty_cons, Bool.not_false, Bool.and_true, Bool.true_and]
            cases hstop : (c.finish_reason == some "stop") with
            | true => simp
            | false => simp [hfr]
  · intro outcome e h
    cases outcome with
    | success b => simp only [shExecuteRequest] at h; cases h
    | failure e' =>
      simp only [shExecuteRequest] at h
      injection h with h'
      rw [← h']
      exact shHandleError_classified _ _

/-- C1 witness: a well-formed provider body yields a schema-valid normalized
response; a 401 failure yields a classified error; the self-hosted variant
passes a success body through verbatim. -/
theorem executeRequest_shape_instance :
    (∃ r, (cerebrasExecuteRequest { apiKey := "k", apiUrl := "https://api.cerebras.ai/v1" }
        [] {}
        (CerebrasOutcome.success
          { id := some (JValue.str "chatcmpl-1")
            model := some (JValue.str "qwen-3-coder-480b")
            choices := some [{ message := some { content := some (JValue.str "hi") }
                               finish_reason := some "stop" }]
            usage := some { prompt_tokens := some 3, completion_tokens := some 1 } })).2
      = Except.ok r ∧ isNormalizedResponse r = true)
    ∧ IsCerebrasClassified
        (cerebrasHandleError
          { response := some (401, { error := some "bad key" }) })
    ∧ (shExecuteRequest { url := "http://localhost:8000", description := "d" } [] {}
        (SHOutcome.success (JValue.obj []))).2 = Except.ok (JValue.obj []) := by
  obtain ⟨hclass, hwf, -, hsh⟩ :=
    executeRequest_shape
      { apiKey := "k", apiUrl := "https://api.cerebras.ai/v1" }
      { url := "http://localhost:8000", description := "d" } [] {}
  refine ⟨hwf _ rfl, ?_, hsh _⟩
  exact hclass (CerebrasOutcome.failure { response := some (401, { error := some "bad key" }) })
    _ rfl

/-- C1 counterexample: the self-hosted strategy returns a 2xx body verbatim,
so executeRequest can return a value that does not match the
NormalizedResponse schema without throwing — a third outcome the claim
excludes. -/
theorem selfHosted_verbatim_breaks_shape :
    (shExecuteRequest { url := "http://localhost:8000", description := "Self-hosted proxy" }
        [JValue.obj [("role", JValue.str "user"), ("content", JValue.str "hello")]] {}
        (SHOutcome.success (JValue.obj []))).2
      = Except.ok (JValue.obj [])
    ∧ isNormalizedJson (JValue.obj []) = false := ⟨rfl, rfl⟩

/-- C3: layered loading obeys precedence — with a global config activating A
and a project config activating B the merged configuration activates B and
still contains both entries; with only a global config it activates A; with
no explicit source at all load returns the built-in defaults wholesale; and
a higher-precedence source replaces a same-named backend's entire entry
rather than field-merging it. -/
theorem config_layering (a b : String) (ea eb : BackendCfg)
    (gbs pbs : Obj BackendCfg) (gport pport : Option PortV)
    (hga : alookup gbs a = some ea) (hpb : alookup pbs b = some eb)
    (hpa : alookup pbs a = none) :
    ((mergedPure (some ⟨some a, gport, some gbs⟩) (some ⟨some b, pport, some pbs⟩) none).backend
        = some b
      ∧ alookup ((mergedPure (some ⟨some a, gport, some gbs⟩)
            (some ⟨some b, pport, some pbs⟩) none).backends.getD []) b = some eb
      ∧ alookup ((mergedPure (some ⟨some a, gport, some gbs⟩)
            (some ⟨some b, pport, some pbs⟩) none).backends.getD []) a = some ea
      ∧ (validateConfig (mergedPure (some ⟨some a, gport, some gbs⟩)
            (some ⟨some b, pport, some pbs⟩) none) = Except.ok () →
          loadPure (some ⟨some a, gport, some gbs⟩) (some ⟨some b, pport, some pbs⟩) none
            = Except.ok (mergedPure (some ⟨some a, gport, some gbs⟩)
                (some ⟨some b, pport, some pbs⟩) none)))
    ∧ ((mergedPure (some ⟨some a, gport, some gbs⟩) none none).backend = some a
      ∧ (validateConfig (mergedPure (some ⟨some a, gport, some gbs⟩) none none)
            = Except.ok () →
          loadPure (some ⟨some a, gport, some gbs⟩) none none
            = Except.ok (mergedPure (some ⟨some a, gport, some gbs⟩) none none)))
    ∧ loadPure none none none = Except.ok getDefaultConfig
    ∧ (∀ (base ov : Config) (k : String) (e : BackendCfg) (obs : Obj BackendCfg),
        ov.backends = some obs → alookup obs k = some e →
        alookup ((mergeConfigs base ov).backends.getD []) k = some e) := by
  refine ⟨⟨rfl, ?_, ?_, ?_⟩, ⟨rfl, ?_⟩, rfl, ?_⟩
  · have h1 : alookup (objMerge gbs pbs) b = some eb := by
      rw [alookup_objMerge, hpb]
    exact alookup_fillDefaults
      (mergeConfigs (mergeConfigs {} ⟨some a, gport, some gbs⟩)
        ⟨some b, pport, some pbs⟩) _ _ h1
  · have h1 : alookup (objMerge gbs pbs) a = some ea := by
      rw [alookup_objMerge, hpa]
      exact hga
    exact alookup_fillDefaults
      (mergeConfigs (mergeConfigs {} ⟨some a, gport, some gbs⟩)
        ⟨some b, pport, some pbs⟩) _ _ h1
  · intro h; simp [loadPure, h]
  · intro h; simp [loadPure, h]
  · intro base ov k e obs hov hk
    simp [mergeConfigs, hov, alookup_objMerge, hk]

/-- C3 witness: a concrete global config activating A and project config
activating B merge to B active with both entries present, and load succeeds. -/
theorem config_layering_instance :
    (mergedPure
        (some ⟨some "A", none, some [("A", { type := some "self-hosted", url := some "http://a:1" })]⟩)
        (some ⟨some "B", none, some [("B", { type := some "self-hosted", url := some "http://b:1" })]⟩)
        none).backend = some "B"
    ∧ alookup ((mergedPure
        (some ⟨some "A", none, some [("A", { type := some "self-hosted", url := some "http://a:1" })]⟩)
        (some ⟨some "B", none, some [("B", { type := some "self-hosted", url := some "http://b:1" })]⟩)
        none).backends.getD []) "B" = some { type := some "self-hosted", url := some "http://b:1" }
    ∧ alookup ((mergedPure
        (some ⟨some "A", none, some [("A", { type := some "self-hosted", url := some "http://a:1" })]⟩)
        (some ⟨some "B", none, some [("B", { type := some "self-hosted", url := some "http://b:1" })]⟩)
        none).backends.getD []) "A" = some { type := some "self-hosted", url := some "http://a:1" }
    ∧ loadPure
        (some ⟨some "A", none, some [("A", { type := some "self-hosted", url := some "http://a:1" })]⟩)
        (some ⟨some "B", none, some [("B", { type := some "self-hosted", url := some "http://b:1" })]⟩)
        none
      = Except.ok (mergedPure
        (some ⟨some "A", none, some [("A", { type := some "self-hosted", url := some "http://a:1" })]⟩)
        (some ⟨some "B", none, some [("B", { type := some "self-hosted", url := some "http://b:1" })]⟩)
        none) := by
  obtain ⟨⟨h1, h2, h3, h4⟩, -, -, -⟩ :=
    config_layering "A" "B"
      { type := some "self-hosted", url := some "http://a:1" }
      { type := some "self-hosted", url := some "http://b:1" }
      [("A", { type := some "self-hosted", url := some "http://a:1" })]
      [("B", { type := some "self-hosted", url := some "http://b:1" })]
      none none rfl rfl rfl
  exact ⟨h1, h2, h3, h4 rfl⟩

/-- C4 (amended): load rejects a merged configuration whose active backend
name is absent from the backends map, whose active cerebras entry lacks a
truthy apiKey, or whose active self-hosted entry lacks a truthy url; it does
not inspect the url's syntax (that check happens only in the SelfHosted
strategy constructor), and every validation error aborts load. -/
theorem load_validation_rejections (c : Config) :
    (∀ s bs, c.backend = some s → s ≠ "" → c.backends = some bs → alookup bs s = none →
      validateConfig c
        = Except.error ("Backend \"" ++ s ++ "\" not found in backends configuration"))
    ∧ (∀ s bs b, c.backend = some s → s ≠ "" → c.backends = some bs → alookup bs s = some b →
        b.type = some "cerebras" → truthyS b.apiKey = false →
        validateConfig c
          = Except.error ("Backend \"" ++ s ++ "\" missing required field: apiKey"))
    ∧ (∀ s bs b, c.backend = some s → s ≠ "" → c.backends = some bs → alookup bs s = some b →
        b.type = some "self-hosted" → truthyS b.url = false →
        validateConfig c
          = Except.error ("Backend \"" ++ s ++ "\" missing required field: url"))
    ∧ (∀ g p e m, validateConfig (mergedPure g p e) = Except.error m →
        loadPure g p e = Except.error m) := by
  refine ⟨?_, ?_, ?_, ?_⟩
  · intro s bs hb hs hbs hl
    have hsb : (s == "") = false := by simpa using hs
    simp [validateConfig, hb, hbs, hl, hsb]
  · intro s bs b hb hs hbs hl ht hak
    have hsb : (s == "") = false := by simpa using hs
    simp [validateConfig, validateBackend, hb, hbs, hl, ht, hak, hsb]
  · intro s bs b hb hs hbs hl ht hu
    have hsb : (s == "") = false := by simpa using hs
    simp [validateConfig, validateBackend, hb, hbs, hl, ht, hu, hsb]
  · intro g p e m h
    simp [loadPure, h]

/-- C4 witness: the three rejection conditions at concrete configurations. -/
theorem load_validation_rejections_instance :
    validateConfig ⟨some "x", none, some []⟩
      = Except.error "Backend \"x\" not found in backends configuration"
    ∧ validateConfig ⟨some "c", none, some [("c", { type := some "cerebras" })]⟩
      = Except.error "Backend \"c\" missing required field: apiKey"
    ∧ validateConfig ⟨some "s", none, some [("s", { type := some "self-hosted" })]⟩
      = Except.error "Backend \"s\" missing required field: url" := by
  obtain ⟨h1, -, -, -⟩ := load_validation_rejections ⟨some "x", none, some []⟩
  obtain ⟨-, h2, -, -⟩ :=
    load_validation_rejections ⟨some "c", none, some [("c", { type := some "cerebras" })]⟩
  obtain ⟨-, -, h3, -⟩ :=
    load_validation_rejections ⟨some "s", none, some [("s", { type := some "self-hosted" })]⟩
  exact ⟨h1 "x" [] rfl (by decide) rfl rfl,
    h2 "c" _ _ rfl (by decide) rfl rfl rfl rfl,
    h3 "s" _ _ rfl (by decide) rfl rfl rfl rfl⟩

/-- C4 counterexample: a merged configuration whose active self-hosted entry
has a syntactically invalid url is accepted by load (no URL parsing happens
there); only the SelfHosted strategy constructor rejects it later. -/
theorem load_accepts_invalid_url :
    isValidURL "not-a-url" = false
    ∧ loadPure none none
        (some ⟨some "remote", none,
          some [("remote", { type := some "self-hosted", url := some "not-a-url" })]⟩)
      = Except.ok (mergedPure none none
        (some ⟨some "remote", none,
          some [("remote", { type := some "self-hosted", url := some "not-a-url" })]⟩))
    ∧ (mergedPure none none
        (some ⟨some "remote", none,
          some [("remote", { type := some "self-hosted", url := some "not-a-url" })]⟩)).backend
      = some "remote"
    ∧ alookup ((mergedPure none none
        (some ⟨some "remote", none,
          some [("remote", { type := some "self-hosted", url := some "not-a-url" })]⟩)).backends.getD [])
        "remote" = some { type := some "self-hosted", url := some "not-a-url" }
    ∧ mkSelfHosted { type := some "self-hosted", url := some "not-a-url" }
      = Except.error "Invalid URL format" :=
  ⟨rfl, rfl, rfl, rfl, rfl⟩

/-- C10: configuration validation inspects only the active backend entry —
the outcome is unchanged by arbitrary modifications of the other entries,
and a configuration whose active entry validates is accepted (and load
returns it) no matter what the non-active entries contain. -/
theorem validation_only_active :
    (∀ (s : String) (po₁ po₂ : Option PortV) (bs₁ bs₂ : Obj BackendCfg),
      alookup bs₁ s = alookup bs₂ s →
      validateConfig ⟨some s, po₁, some bs₁⟩ = validateConfig ⟨some s, po₂, some bs₂⟩)
    ∧ (∀ (c : Config) (s : String) (bs : Obj BackendCfg) (b : BackendCfg),
        c.backend = some s → s ≠ "" → c.backends = some bs → alookup bs s = some b →
        validateBackend s b = Except.ok () → validateConfig c = Except.ok ())
    ∧ (∀ g p e, validateConfig (mergedPure g p e) = Except.ok () →
        loadPure g p e = Except.ok (mergedPure g p e)) := by
  refine ⟨?_, ?_, ?_⟩
  · intro s po₁ po₂ bs₁ bs₂ h
    dsimp only [validateConfig]
    rw [h]
  · intro c s bs b hb hs hbs hl hv
    have hsb : (s == "") = false := by simpa using hs
    simp [validateConfig, hb, hbs, hl, hsb, hv]
  · intro g p e h
    simp [loadPure, h]

/-- C10 witness: a configuration whose non-active entry has an unrecognized
type and no fields still validates, and changing that junk entry does not
change the outcome. -/
theorem validation_only_active_instance :
    validateConfig ⟨some "good", none,
        some [("good", { type := some "self-hosted", url := some "http://localhost:8000" }),
          ("junk", { type := some "weird-type" })]⟩ = Except.ok ()
    ∧ validateConfig ⟨some "good", none,
        some [("good", { type := some "self-hosted", url := some "http://localhost:8000" }),
          ("junk", { type := some "weird-type" })]⟩
      = validateConfig ⟨some "good", none,
        some [("good", { type := some "self-hosted", url := some "http://localhost:8000" }),
          ("junk", { type := some "cerebras" })]⟩ := by
  obtain ⟨hni, hok, -⟩ := validation_only_active
  refine ⟨?_, ?_⟩
  · exact hok _ "good" _ _ rfl (by decide) rfl rfl rfl
  · exact hni "good" none none _ _ rfl

/-- C8 witness: the empty-array body is answered 400 with the validation
message for two different strategies. -/
theorem messages_validation_rejects_instance :
    messagesHandler { messages := some (JValue.arr []) } (fun _ _ => Except.ok JValue.null)
      = messagesHandler { messages := some (JValue.arr []) }
          (fun _ _ => Except.error { message := "backend down" })
    ∧ (messagesHandler { messages := some (JValue.arr []) }
        (fun _ _ => Except.ok JValue.null)).httpStatus = 400 := by
  obtain ⟨heq, h400, -, -⟩ :=
    messages_validation_rejects { messages := some (JValue.arr []) } rfl
      (fun _ _ => Except.ok JValue.null)
      (fun _ _ => Except.error { message := "backend down" })
  exact ⟨heq, h400⟩

end LlmProxy
